import Mathlib

/-!
Verification of the `nats-rpc` wrapper (src/index.js) against its
natural-language specification.

The development shallowly embeds the semantic layer of the wrapper:
the JSON envelope codec (`JSONCodec` from the `nats` package: `encode` is
`JSON.stringify`, `decode` is `JSON.parse`), the `call` request/reply
classification logic, the `ensureStreamForSubject` provisioning sequence,
the per-message processing step of `servicePersist`, the `emit` payload
rule, subject naming, and the constructor/option defaults.

JSON numbers are modelled as integers (the only numbers this code base
exchanges); JavaScript `undefined` is modelled as `Option.none` at the
payload level (`decodeWrapper` returning `some none` is the wrapper's
`undefined` for an empty body).
-/

/-- Model of a JSON value as exchanged by `JSONCodec` (object member order
is the insertion order that `JSON.stringify` preserves). -/
inductive Json where
  | null : Json
  | bool : Bool → Json
  | num : Int → Json
  | str : String → Json
  | arr : List Json → Json
  | obj : List (String × Json) → Json

/-- Decimal digits of a natural number, most significant first; `fuel`
bounds the recursion (any `fuel > 0` with `fuel ≥ log10 n` suffices). -/
def natDigitsAux : Nat → Nat → List Char
  | 0, _ => []
  | fuel + 1, n =>
    if n < 10 then [Char.ofNat (48 + n)]
    else natDigitsAux fuel (n / 10) ++ [Char.ofNat (48 + n % 10)]

/-- Decimal string of a natural number. -/
def natToString (n : Nat) : String :=
  String.mk (natDigitsAux (n + 1) n)

/-- Decimal string of an integer; this is how JavaScript prints the
integral numbers this wrapper exchanges. -/
def intToString : Int → String
  | Int.ofNat n => natToString n
  | Int.negSucc n => "-" ++ natToString (n + 1)

/-- Escape of one character inside a JSON string literal, as produced by
`JSON.stringify`. -/
def escChar (c : Char) : String :=
  if c == Char.ofNat 34 then "\\\""
  else if c == Char.ofNat 92 then "\\\\"
  else if c == Char.ofNat 10 then "\\n"
  else if c == Char.ofNat 13 then "\\r"
  else if c == Char.ofNat 9 then "\\t"
  else if c == Char.ofNat 8 then "\\b"
  else if c == Char.ofNat 12 then "\\f"
  else if c.toNat < 32 then
    "\\u00" ++ String.mk [Char.ofNat (if c.toNat / 16 < 10 then 48 + c.toNat / 16 else 87 + c.toNat / 16),
                          Char.ofNat (if c.toNat % 16 < 10 then 48 + c.toNat % 16 else 87 + c.toNat % 16)]
  else String.singleton c

/-- Escape a whole string body for JSON output. -/
def escapeString (s : String) : String :=
  s.toList.foldl (fun acc c => acc ++ escChar c) ""

/-- Quoted JSON string literal. -/
def quoteJsonString (s : String) : String :=
  "\"" ++ escapeString s ++ "\""

mutual

/-- Serialization of a JSON value, following `JSON.stringify` (no added
whitespace, object members in insertion order). -/
def jsonStringify : Json → String
  | Json.null => "null"
  | Json.bool true => "true"
  | Json.bool false => "false"
  | Json.num i => intToString i
  | Json.str s => quoteJsonString s
  | Json.arr xs => "[" ++ stringifyElems xs ++ "]"
  | Json.obj fs => "\x7b" ++ stringifyMembers fs ++ "\x7d"

/-- Comma-separated serialization of array elements. -/
def stringifyElems : List Json → String
  | [] => ""
  | [x] => jsonStringify x
  | x :: y :: ys => jsonStringify x ++ "," ++ stringifyElems (y :: ys)

/-- Comma-separated serialization of object members. -/
def stringifyMembers : List (String × Json) → String
  | [] => ""
  | [(k, v)] => quoteJsonString k ++ ":" ++ jsonStringify v
  | (k, v) :: m :: ms =>
    quoteJsonString k ++ ":" ++ jsonStringify v ++ "," ++ stringifyMembers (m :: ms)

end

/-- JSON whitespace accepted by `JSON.parse`. -/
def jsonWs (c : Char) : Bool :=
  c == ' ' || c == Char.ofNat 9 || c == Char.ofNat 10 || c == Char.ofNat 13

/-- Drop leading JSON whitespace. -/
def skipWs : List Char → List Char
  | [] => []
  | c :: cs => if jsonWs c then skipWs cs else c :: cs

/-- Hexadecimal digit value, if the character is one. -/
def hexVal (c : Char) : Option Nat :=
  if '0' ≤ c && c ≤ '9' then some (c.toNat - 48)
  else if 'a' ≤ c && c ≤ 'f' then some (c.toNat - 87)
  else if 'A' ≤ c && c ≤ 'F' then some (c.toNat - 55)
  else none

/-- Parse the body of a JSON string literal (after the opening quote),
returning the decoded characters and the remaining input; `fuel` bounds
the recursion (one unit per consumed character suffices). -/
def parseStrCharsAux : Nat → List Char → Option (List Char × List Char)
  | 0, _ => none
  | _, [] => none
  | fuel + 1, c :: rest =>
    if c == Char.ofNat 34 then some ([], rest)
    else if c == Char.ofNat 92 then
      match rest with
      | [] => none
      | e :: r =>
        let simpleEsc : Option Char :=
          if e == Char.ofNat 34 then some (Char.ofNat 34)
          else if e == Char.ofNat 92 then some (Char.ofNat 92)
          else if e == '/' then some '/'
          else if e == 'n' then some (Char.ofNat 10)
          else if e == 'r' then some (Char.ofNat 13)
          else if e == 't' then some (Char.ofNat 9)
          else if e == 'b' then some (Char.ofNat 8)
          else if e == 'f' then some (Char.ofNat 12)
          else none
        match simpleEsc with
        | some d =>
          match parseStrCharsAux fuel r with
          | some (cs, rem) => some (d :: cs, rem)
          | none => none
        | none =>
          if e == 'u' then
            match r with
            | h1 :: h2 :: h3 :: h4 :: r2 =>
              match hexVal h1, hexVal h2, hexVal h3, hexVal h4 with
              | some a, some b, some c2, some d =>
                match parseStrCharsAux fuel r2 with
                | some (cs, rem) =>
                  some (Char.ofNat (((a * 16 + b) * 16 + c2) * 16 + d) :: cs, rem)
                | none => none
              | _, _, _, _ => none
            | _ => none
          else none
    else
      match parseStrCharsAux fuel rest with
      | some (cs, rem) => some (c :: cs, rem)
      | none => none

/-- Parse a JSON string body with ample fuel. -/
def parseStrChars (cs : List Char) : Option (List Char × List Char) :=
  parseStrCharsAux (cs.length + 1) cs

/-- Collect leading decimal digits. -/
def takeDigits : List Char → List Char × List Char
  | [] => ([], [])
  | c :: cs =>
    if c.isDigit then
      let (ds, rest) := takeDigits cs
      (c :: ds, rest)
    else ([], c :: cs)

/-- Numeric value of a digit list. -/
def digitsToNat (ds : List Char) : Nat :=
  ds.foldl (fun acc c => acc * 10 + (c.toNat - 48)) 0

/-- Parse a JSON number. The model covers the integer numbers this code
base exchanges; a fractional or exponent part is not represented in
`Json.num` and makes the parse fail. -/
def parseNumber (cs : List Char) : Option (Json × List Char) :=
  match cs with
  | '-' :: rest =>
    match takeDigits rest with
    | ([], _) => none
    | (ds, rem) =>
      match rem with
      | '.' :: _ => none
      | 'e' :: _ => none
      | 'E' :: _ => none
      | _ => some (Json.num (-(digitsToNat ds : Int)), rem)
  | _ =>
    match takeDigits cs with
    | ([], _) => none
    | (ds, rem) =>
      match rem with
      | '.' :: _ => none
      | 'e' :: _ => none
      | 'E' :: _ => none
      | _ => some (Json.num (digitsToNat ds), rem)

mutual

/-- Parse one JSON value; `fuel` bounds nesting (each recursive call
consumes at least one input character first, so `length + 1` is ample). -/
def parseVal : Nat → List Char → Option (Json × List Char)
  | 0, _ => none
  | fuel + 1, input =>
    match skipWs input with
    | [] => none
    | 'n' :: 'u' :: 'l' :: 'l' :: r => some (Json.null, r)
    | 't' :: 'r' :: 'u' :: 'e' :: r => some (Json.bool true, r)
    | 'f' :: 'a' :: 'l' :: 's' :: 'e' :: r => some (Json.bool false, r)
    | c :: r =>
      if c == Char.ofNat 34 then
        match parseStrChars r with
        | some (cs, rem) => some (Json.str (String.mk cs), rem)
        | none => none
      else if c == '[' then
        match skipWs r with
        | ']' :: r2 => some (Json.arr [], r2)
        | r2 => parseElems fuel r2
      else if c == Char.ofNat 123 then
        match skipWs r with
        | r2 =>
          if r2.head? == some (Char.ofNat 125) then some (Json.obj [], r2.tail)
          else parseMembers fuel r2
      else parseNumber (c :: r)

/-- Parse the elements of a non-empty JSON array (after `[`). -/
def parseElems : Nat → List Char → Option (Json × List Char)
  | 0, _ => none
  | fuel + 1, input =>
    match parseVal fuel input with
    | none => none
    | some (v, rest) =>
      match skipWs rest with
      | ',' :: r => (parseElems fuel r).bind fun p =>
          match p with
          | (Json.arr vs, rem) => some (Json.arr (v :: vs), rem)
          | _ => none
      | ']' :: r => some (Json.arr [v], r)
      | _ => none

/-- Parse the members of a non-empty JSON object (after the opening
brace). -/
def parseMembers : Nat → List Char → Option (Json × List Char)
  | 0, _ => none
  | fuel + 1, input =>
    match skipWs input with
    | q :: r =>
      if q == Char.ofNat 34 then
        match parseStrChars r with
        | some (kcs, afterKey) =>
          match skipWs afterKey with
          | ':' :: afterColon =>
            match parseVal fuel afterColon with
            | some (v, rest) =>
              match skipWs rest with
              | ',' :: r2 => (parseMembers fuel r2).bind fun p =>
                  match p with
                  | (Json.obj ms, rem) => some (Json.obj ((String.mk kcs, v) :: ms), rem)
                  | _ => none
              | r2 =>
                if r2.head? == some (Char.ofNat 125) then
                  some (Json.obj [(String.mk kcs, v)], r2.tail)
                else none
            | none => none
          | _ => none
        | none => none
      else none
    | [] => none

end

/-- Model of `JSON.parse`: parse one value and require only trailing
whitespace; `none` models the `SyntaxError` the engine throws. -/
def parseJson (s : String) : Option Json :=
  let cs := s.toList
  match parseVal (cs.length + 1) cs with
  | some (v, rest) => if (skipWs rest).isEmpty then some v else none
  | none => none

/-- Payload decoding as every wrapper entry point performs it:
`m.data && m.data.length ? jc.decode(m.data) : undefined`.
The outer `none` is a thrown parse error; `some none` is the
`undefined` (`Empty`) produced for a zero-length body. -/
def decodeWrapper (data : String) : Option (Option Json) :=
  if data.length == 0 then some none
  else
    match parseJson data with
    | some v => some (some v)
    | none => none

/-- Last-wins lookup of an object member, matching `JSON.parse`'s duplicate
key behaviour (later members overwrite earlier ones). -/
def lookupLast : List (String × Json) → String → Option Json
  | [], _ => none
  | (k, v) :: rest, key =>
    match lookupLast rest key with
    | some r => some r
    | none => if k == key then some v else none

/-- JavaScript property access `v.field` on a decoded JSON value:
`undefined` (`none`) unless `v` is an object with the member. -/
def getField : Json → String → Option Json
  | Json.obj fs, k => lookupLast fs k
  | _, _ => none

/-- JavaScript truthiness of a JSON value. -/
def jsTruthyVal : Json → Bool
  | Json.null => false
  | Json.bool b => b
  | Json.num i => !(i == 0)
  | Json.str s => !(s == "")
  | Json.arr _ => true
  | Json.obj _ => true

/-- JavaScript truthiness where `none` is `undefined`. -/
def jsTruthy : Option Json → Bool
  | none => false
  | some v => jsTruthyVal v

mutual

/-- JavaScript `String(v)` coercion of a JSON value (used by the `Error`
constructor on a non-string `message`). -/
def jsStringOfJson : Json → String
  | Json.null => "null"
  | Json.bool true => "true"
  | Json.bool false => "false"
  | Json.num i => intToString i
  | Json.str s => s
  | Json.arr xs => jsStringOfList xs
  | Json.obj _ => "[object Object]"

/-- JavaScript `Array.prototype.toString`: elements joined by commas, with
`null` elements rendered as the empty string. -/
def jsStringOfList : List Json → String
  | [] => ""
  | [Json.null] => ""
  | [x] => jsStringOfJson x
  | Json.null :: y :: ys => "," ++ jsStringOfList (y :: ys)
  | x :: y :: ys => jsStringOfJson x ++ "," ++ jsStringOfList (y :: ys)

end

/-- ASCII word character for the JavaScript regex `\b` boundary. -/
def isWordChar (c : Char) : Bool := c.isAlphanum || c == '_'

/-- Whether the word `w` matches in `s` at index `i` with `\b` boundaries
on both sides. -/
def wordMatchAt (s w : List Char) (i : Nat) : Bool :=
  ((s.drop i).take w.length == w)
  && (i == 0 || (match s.get? (i - 1) with | some c => !isWordChar c | none => true))
  && (match s.get? (i + w.length) with | some c => !isWordChar c | none => true)

/-- Test of the regex `\b<w>\b` against `s`. -/
def testWordRegex (w s : List Char) : Bool :=
  (List.range (s.length + 1)).any (fun i => wordMatchAt s w i)

/-- Test of `\b<w>\b` with the `i` (ignore case) flag, ASCII semantics. -/
def testWordCI (w s : String) : Bool :=
  testWordRegex (w.toList.map Char.toLower) (s.toList.map Char.toLower)

/-- Test of `\b<w>\b` without the ignore-case flag. -/
def testWord (w s : String) : Bool :=
  testWordRegex w.toList s.toList

/-- Transport-level outcome of one `nc.request`: either a reply message
carrying `data` bytes, or a rejection with an error `code` (modelled
post-`String` coercion) and message. -/
inductive ReqOutcome where
  | reply (data : String)
  | failure (code : Option String) (message : String)

/-- Observable outcome of `NATS.call`: the returned value (with `none`
for `undefined`), or one of the thrown error shapes of the source
(`RPC_REMOTE_ERROR`, `RPC_TIMEOUT`, `RPC_NO_RESPONDERS`, a rethrown
transport error, or a reply whose bytes `JSON.parse` rejects). -/
inductive CallOutcome where
  | ret (v : Option Json)
  | remoteError (message : String) (remoteStack remoteName : Option Json)
  | rpcTimeout (message : String) (timeoutVal : Int)
  | noResponders (message : String)
  | transportError (code : Option String) (message : String)
  | replyUnparseable

/-- Detection in `call`'s catch block of a transport timeout:
`err?.code === 'REQ_TIMEOUT' || /\btimeout\b/i.test(errMsg)`. -/
def timeoutDetected (code : Option String) (errMsg : String) : Bool :=
  code == some "REQ_TIMEOUT" || testWordCI "timeout" errMsg

/-- The `String(err?.code ?? '')` coercion. -/
def codeStrOf (code : Option String) : String := code.getD ""

/-- Detection in `call`'s catch block of a "no responders" condition. -/
def noRespondersDetected (code : Option String) (errMsg : String) : Bool :=
  code == some "NO_RESPONDERS"
    || codeStrOf code == "NO_RESPONDERS"
    || codeStrOf code == "503"
    || testWordCI "no responders" errMsg
    || testWord "503" errMsg

/-- The catch block of `NATS.call`: reclassify the caught error as
`RPC_TIMEOUT` or `RPC_NO_RESPONDERS`, or rethrow it unchanged (`orig`). -/
def classify (subject : String) (timeout : Int) (orig : CallOutcome)
    (code : Option String) (errMsg : String) : CallOutcome :=
  if timeoutDetected code errMsg then
    CallOutcome.rpcTimeout
      ("RPC timeout after " ++ intToString timeout ++ "ms for subject " ++ subject) timeout
  else if noRespondersDetected code errMsg then
    CallOutcome.noResponders ("No responders for subject " ++ subject)
  else orig

/-- Result of the reply-processing body of `call`'s try block: a returned
value or a thrown `RPC_REMOTE_ERROR` (message after `Error`'s string
coercion, plus the raw `stack` and `name` fields). -/
inductive ReplyStep where
  | ret (v : Option Json)
  | throwRemote (message : String) (remoteStack remoteName : Option Json)

/-- The `resp.message ?? 'remote error'` nullish coalescing. -/
def coalesceMessage : Option Json → Json
  | none => Json.str "remote error"
  | some Json.null => Json.str "remote error"
  | some m => m

/-- Reply processing of `NATS.call` on the decoded reply value (`none` is
`undefined` for an empty body): `if (!resp) return resp; if (resp.__error)
throw RPC_REMOTE_ERROR; if (resp.__ok) return resp.result; return resp`. -/
def processReply (resp : Option Json) : ReplyStep :=
  match resp with
  | none => ReplyStep.ret none
  | some v =>
    if !jsTruthyVal v then ReplyStep.ret (some v)
    else if jsTruthy (getField v "__error") then
      ReplyStep.throwRemote (jsStringOfJson (coalesceMessage (getField v "message")))
        (getField v "stack") (getField v "name")
    else if jsTruthy (getField v "__ok") then ReplyStep.ret (getField v "result")
    else ReplyStep.ret (some v)

/-- One run of `NATS.call`'s try/catch on a single transport outcome.
The thrown `RPC_REMOTE_ERROR` is raised inside the try block, so it flows
through the same catch-block classification as a transport rejection. -/
def callModel (subject : String) (timeout : Int) (outcome : ReqOutcome) : CallOutcome :=
  match outcome with
  | ReqOutcome.failure code msg => classify subject timeout (CallOutcome.transportError code msg) code msg
  | ReqOutcome.reply data =>
    match decodeWrapper data with
    | none => CallOutcome.replyUnparseable
    | some resp =>
      match processReply resp with
      | ReplyStep.ret v => CallOutcome.ret v
      | ReplyStep.throwRemote m st nm =>
        classify subject timeout (CallOutcome.remoteError m st nm) (some "RPC_REMOTE_ERROR") m

/-- `NATS.call` against a queue of available transport outcomes, returning
the observable outcome and the number of transport requests issued.
The source performs a single `nc.request` with no retry loop, so exactly
one outcome is consumed. -/
def callRun (subject : String) (timeout : Int) (outcomes : List ReqOutcome) :
    Option CallOutcome × Nat :=
  match outcomes with
  | [] => (none, 0)
  | o :: _ => (some (callModel subject timeout o), 1)

/-- `_streamNameForSubject`: `js_stream_` plus the subject with every
non-alphanumeric character replaced by `_`. -/
def streamNameForSubject (subject : String) : String :=
  "js_stream_" ++ String.map (fun c => if c.isAlphanum then c else '_') subject

/-- `opts.streamName || _streamNameForSubject(subject)` — JavaScript `||`,
so an empty-string override also falls back. -/
def resolveStreamName (optStreamName : Option String) (subject : String) : String :=
  match optStreamName with
  | some s => if s == "" then streamNameForSubject subject else s
  | none => streamNameForSubject subject

/-- Environment of one `ensureStreamForSubject` invocation: whether the
name is in `_jsStreamsEnsured`, and the outcomes the broker would give to
the first `streams.info`, `streams.add`, and the post-race `streams.info`
(`Except.error` carries the thrown error's identity). -/
structure StreamEnv where
  cached : Bool
  info1 : Except String Unit
  addRes : Except String Unit
  info2 : Except String Unit

/-- Observable trace of `ensureStreamForSubject`: its result, how many
`streams.info` / `streams.add` calls were made, and whether the name ended
up cached. -/
structure EnsureTrace where
  result : Except String String
  infoCalls : Nat
  addCalls : Nat
  cachedAfter : Bool

/-- `NATS.ensureStreamForSubject`: cache hit returns immediately; else
query info; else create; on creation failure re-query info and, if that
also fails, propagate the original creation error. -/
def ensureStreamForSubject (env : StreamEnv) (subject : String)
    (optStreamName : Option String) : EnsureTrace :=
  let streamName := resolveStreamName optStreamName subject
  if env.cached then ⟨Except.ok streamName, 0, 0, true⟩
  else
    match env.info1 with
    | Except.ok _ => ⟨Except.ok streamName, 1, 0, true⟩
    | Except.error _ =>
      match env.addRes with
      | Except.ok _ => ⟨Except.ok streamName, 1, 1, true⟩
      | Except.error e =>
        match env.info2 with
        | Except.ok _ => ⟨Except.ok streamName, 2, 1, true⟩
        | Except.error _ => ⟨Except.error e, 2, 1, false⟩

/-- A JetStream message as seen by `servicePersist`'s loop: payload bytes
and the optional reply subject. -/
structure JsMsg where
  data : String
  reply : Option String

/-- Outcome of one handler invocation: a returned result or a thrown error
(message plus optional `stack` and `name`). -/
inductive HandlerOutcome where
  | ok (result : Json)
  | err (message : String) (stack nm : Option String)

/-- Observable per-message trace of `servicePersist`: the envelopes sent
over the reply subject, whether the message was acknowledged, and whether
the handler ran. -/
structure StepTrace where
  responses : List Json
  acked : Bool
  handlerInvoked : Bool

/-- The success envelope `{ __ok: true, result }`. -/
def okEnvelope (result : Json) : Json :=
  Json.obj [("__ok", Json.bool true), ("result", result)]

/-- The error envelope `{ __error: true, message, stack?, name? }`;
`JSON.stringify` drops `undefined` members, modelled by omitting `none`
fields. -/
def errEnvelope (message : String) (stack nm : Option String) : Json :=
  Json.obj ([("__error", Json.bool true), ("message", Json.str message)]
    ++ (match stack with | some s => [("stack", Json.str s)] | none => [])
    ++ (match nm with | some s => [("name", Json.str s)] | none => []))

/-- The decode-failure envelope `{ __error: true, message: 'invalid JSON
payload', stack: err?.message }`; the engine's parse error text is the
`parseErrMsg` parameter. -/
def malformedEnvelope (parseErrMsg : String) : Json :=
  Json.obj [("__error", Json.bool true), ("message", Json.str "invalid JSON payload"),
            ("stack", Json.str parseErrMsg)]

/-- Observable effect of `m.respond(...)`: a reply reaches a subscriber
only when the message carries a reply subject (responding without one is
a no-op in the transport). -/
def respondTo (m : JsMsg) (j : Json) : List Json :=
  match m.reply with
  | some _ => [j]
  | none => []

/-- One iteration of `servicePersist`'s message loop: decode (failure →
malformed-payload reply, ack, skip handler), else invoke the handler and
reply `__ok`/`__error`; the message is acknowledged in every branch. -/
def servicePersistStep (parseErrMsg : String) (m : JsMsg)
    (h : Option Json → HandlerOutcome) : StepTrace :=
  match decodeWrapper m.data with
  | none => ⟨respondTo m (malformedEnvelope parseErrMsg), true, false⟩
  | some payload =>
    match h payload with
    | HandlerOutcome.ok result => ⟨respondTo m (okEnvelope result), true, true⟩
    | HandlerOutcome.err msg st nm => ⟨respondTo m (errEnvelope msg st nm), true, true⟩

/-- The body `NATS.emit` publishes: `jc.encode(data ?? null)`, with `none`
modelling an omitted/`undefined` payload argument. -/
def emitBody (data : Option Json) : String :=
  jsonStringify (data.getD Json.null)

/-- Subject naming used by `service` and `servicePersist`:
`` `${name}.${method}` ``. -/
def subjectFor (service method : String) : String :=
  service ++ "." ++ method

/-- Constructor default: `opts.defaultTimeout ?? 1000`. -/
def defaultTimeoutOf (optsDefaultTimeout : Option Int) : Int :=
  optsDefaultTimeout.getD 1000

/-- Timeout resolution in `call`: `typeof options.timeout === 'number' ?
options.timeout : this.defaultTimeout` (presence of a numeric option is
the `some` case). -/
def callTimeout (optionsTimeout : Option Int) (defaultTimeout : Int) : Int :=
  optionsTimeout.getD defaultTimeout


/-! ## Helper lemmas -/

theorem natDigitsAux_ne_nil (fuel n : Nat) : natDigitsAux (fuel + 1) n ≠ [] := by
  simp only [natDigitsAux]
  split
  · simp
  · simp

theorem natToString_length_ne_zero (n : Nat) : (natToString n).length ≠ 0 := by
  have h := natDigitsAux_ne_nil n n
  simp only [natToString, String.length_mk]
  intro hlen
  exact h (List.length_eq_zero.mp hlen)

theorem intToString_length_ne_zero (i : Int) : (intToString i).length ≠ 0 := by
  cases i with
  | ofNat n => exact natToString_length_ne_zero n
  | negSucc n =>
    show (("-" : String) ++ natToString (n + 1)).length ≠ 0
    rw [String.length_append]
    have h1 : ("-" : String).length = 1 := rfl
    omega

theorem jsonStringify_length_ne_zero (j : Json) : (jsonStringify j).length ≠ 0 := by
  cases j with
  | null => decide
  | bool b => cases b <;> decide
  | num i => exact intToString_length_ne_zero i
  | str s =>
    show (("\"" : String) ++ escapeString s ++ "\"").length ≠ 0
    rw [String.length_append, String.length_append]
    have h1 : ("\"" : String).length = 1 := rfl
    omega
  | arr xs =>
    show (("[" : String) ++ stringifyElems xs ++ "]").length ≠ 0
    rw [String.length_append, String.length_append]
    have h1 : ("[" : String).length = 1 := rfl
    omega
  | obj fs =>
    show (("\x7b" : String) ++ stringifyMembers fs ++ "\x7d").length ≠ 0
    rw [String.length_append, String.length_append]
    have h1 : ("\x7b" : String).length = 1 := rfl
    omega

theorem append_sep_inj {α : Type} (x : α) :
    ∀ a b m1 m2 : List α, x ∉ a → x ∉ b → a ++ x :: m1 = b ++ x :: m2 →
      a = b ∧ m1 = m2 := by
  intro a
  induction a with
  | nil =>
    intro b m1 m2 _ hb h
    cases b with
    | nil => simpa using h
    | cons y bs =>
      exfalso
      simp only [List.nil_append, List.cons_append, List.cons.injEq] at h
      exact hb (h.1 ▸ List.mem_cons_self y bs)
  | cons z as ih =>
    intro b m1 m2 ha hb h
    cases b with
    | nil =>
      exfalso
      simp only [List.nil_append, List.cons_append, List.cons.injEq] at h
      exact ha (h.1 ▸ List.mem_cons_self z as)
    | cons y bs =>
      simp only [List.cons_append, List.cons.injEq] at h
      obtain ⟨rfl, h2⟩ := h
      have ha' : x ∉ as := fun hx => ha (List.mem_cons_of_mem _ hx)
      have hb' : x ∉ bs := fun hx => hb (List.mem_cons_of_mem _ hx)
      obtain ⟨rfl, rfl⟩ := ih bs m1 m2 ha' hb' h2
      exact ⟨rfl, rfl⟩

/-! ## Claim theorems -/

/-- C1 counterexample: the claim predicts that with `retries = 2` a call
hitting "no responders" makes 3 total attempts; the source has no retry
loop and no `retries` option, so even with three outcomes available the
call consumes exactly one attempt (not 3) and fails at once. -/
theorem call_noResponders_attempts_counterexample :
    callRun "svc.m" 100
      [ReqOutcome.failure (some "NO_RESPONDERS") "no responders available",
       ReqOutcome.failure (some "NO_RESPONDERS") "no responders available",
       ReqOutcome.failure (some "NO_RESPONDERS") "no responders available"] =
      (some (CallOutcome.noResponders "No responders for subject svc.m"), 1) ∧
    (1 : Nat) ≠ 3 :=
  ⟨rfl, by decide⟩

/-- C1 (amended): when the broker signals "no responders" (and the error
is not classified as a timeout first), `call` fails immediately with the
`RPC_NO_RESPONDERS` error naming the subject, making exactly one transport
attempt and performing no retries and no backoff delay. -/
theorem call_noResponders_fails_immediately
    (subject : String) (timeout : Int) (code : Option String) (msg : String)
    (rest : List ReqOutcome)
    (hTO : timeoutDetected code msg = false)
    (hNR : noRespondersDetected code msg = true) :
    callRun subject timeout (ReqOutcome.failure code msg :: rest) =
      (some (CallOutcome.noResponders ("No responders for subject " ++ subject)), 1) := by
  simp [callRun, callModel, classify, hTO, hNR]

/-- C1 witness: a concrete `NO_RESPONDERS` rejection. -/
theorem call_noResponders_fails_immediately_witness :
    callRun "svc.m" 100
        [ReqOutcome.failure (some "NO_RESPONDERS") "no responders available"] =
      (some (CallOutcome.noResponders ("No responders for subject " ++ "svc.m")), 1) :=
  call_noResponders_fails_immediately "svc.m" 100 (some "NO_RESPONDERS")
    "no responders available" [] rfl rfl

/-- C2: a durable handler failure makes `servicePersist` reply with the
`__error` envelope carrying the handler's message (when a reply subject is
present; nothing is sent otherwise) and the message is acknowledged in
either case, so a handler failure never causes redelivery. -/
theorem servicePersist_handler_error_replies_and_acks :
    (∀ (pm : String) (m : JsMsg) (h : Option Json → HandlerOutcome)
        (p : Option Json) (msg : String) (st nm : Option String) (r : String),
        m.reply = some r →
        decodeWrapper m.data = some p →
        h p = HandlerOutcome.err msg st nm →
        servicePersistStep pm m h = ⟨[errEnvelope msg st nm], true, true⟩) ∧
    (∀ (pm : String) (m : JsMsg) (h : Option Json → HandlerOutcome)
        (p : Option Json) (msg : String) (st nm : Option String),
        m.reply = none →
        decodeWrapper m.data = some p →
        h p = HandlerOutcome.err msg st nm →
        servicePersistStep pm m h = ⟨[], true, true⟩) := by
  constructor
  · intro pm m h p msg st nm r hreply hdec hh
    simp [servicePersistStep, hdec, hh, respondTo, hreply]
  · intro pm m h p msg st nm hreply hdec hh
    simp [servicePersistStep, hdec, hh, respondTo, hreply]

/-- C2 witness: a handler throwing `boom!` on a decodable message with a
reply subject. -/
theorem servicePersist_handler_error_witness :
    servicePersistStep "perr" ⟨"\x7b\"x\":1\x7d", some "REPLY.INBOX"⟩
        (fun _ => HandlerOutcome.err "boom!" none none) =
      ⟨[errEnvelope "boom!" none none], true, true⟩ :=
  servicePersist_handler_error_replies_and_acks.1 "perr"
    ⟨"\x7b\"x\":1\x7d", some "REPLY.INBOX"⟩
    (fun _ => HandlerOutcome.err "boom!" none none)
    (some (Json.obj [("x", Json.num 1)])) "boom!" none none "REPLY.INBOX" rfl rfl rfl

/-- C4: a transport rejection with code `REQ_TIMEOUT` makes `call` fail at
once with `RPC_TIMEOUT`, whose message names the subject and whose
`timeout` field carries the configured timeout; exactly one transport
attempt is consumed (zero retries) whatever outcomes remain queued. -/
theorem call_timeout_immediate (subject : String) (timeout : Int) (msg : String)
    (rest : List ReqOutcome) :
    callRun subject timeout (ReqOutcome.failure (some "REQ_TIMEOUT") msg :: rest) =
      (some (CallOutcome.rpcTimeout
        ("RPC timeout after " ++ intToString timeout ++ "ms for subject " ++ subject)
        timeout), 1) := rfl

/-- C5: the `ensureStreamForSubject` sequence — cache hit returns with no
broker calls; an info hit caches and returns; an info miss followed by a
successful create returns; a failed create followed by a successful
re-query returns; and when the re-query also fails the ORIGINAL creation
error `e` (not the re-query error `e2`) is propagated and nothing is
cached. -/
theorem ensureStream_branches (subject : String) (optN : Option String)
    (i1 a i2 : Except String Unit) (m1 e e2 : String) :
    ensureStreamForSubject ⟨true, i1, a, i2⟩ subject optN =
      ⟨Except.ok (resolveStreamName optN subject), 0, 0, true⟩ ∧
    ensureStreamForSubject ⟨false, Except.ok (), a, i2⟩ subject optN =
      ⟨Except.ok (resolveStreamName optN subject), 1, 0, true⟩ ∧
    ensureStreamForSubject ⟨false, Except.error m1, Except.ok (), i2⟩ subject optN =
      ⟨Except.ok (resolveStreamName optN subject), 1, 1, true⟩ ∧
    ensureStreamForSubject ⟨false, Except.error m1, Except.error e, Except.ok ()⟩ subject optN =
      ⟨Except.ok (resolveStreamName optN subject), 2, 1, true⟩ ∧
    ensureStreamForSubject ⟨false, Except.error m1, Except.error e, Except.error e2⟩ subject optN =
      ⟨Except.error e, 2, 1, false⟩ :=
  ⟨rfl, rfl, rfl, rfl, rfl⟩

/-- C6: every inbound durable message whose payload fails to decode is
acknowledged and its handler is never invoked; when a reply subject is
present the `invalid JSON payload` envelope is additionally sent back
(nothing is sent otherwise, since responding without a reply subject is a
transport no-op). -/
theorem servicePersist_malformed_payload :
    (∀ (pm : String) (m : JsMsg) (h : Option Json → HandlerOutcome) (r : String),
        m.reply = some r →
        decodeWrapper m.data = none →
        servicePersistStep pm m h = ⟨[malformedEnvelope pm], true, false⟩) ∧
    (∀ (pm : String) (m : JsMsg) (h : Option Json → HandlerOutcome),
        m.reply = none →
        decodeWrapper m.data = none →
        servicePersistStep pm m h = ⟨[], true, false⟩) := by
  constructor
  · intro pm m h r hreply hdec
    simp [servicePersistStep, hdec, respondTo, hreply]
  · intro pm m h hreply hdec
    simp [servicePersistStep, hdec, respondTo, hreply]

/-- C6 witness: the undecodable payload `{` is acked, replied-to with the
malformed-payload envelope, and the handler does not run. -/
theorem servicePersist_malformed_payload_witness :
    servicePersistStep "Unexpected end of JSON input" ⟨"\x7b", some "REPLY.INBOX"⟩
        (fun _ => HandlerOutcome.ok Json.null) =
      ⟨[malformedEnvelope "Unexpected end of JSON input"], true, false⟩ :=
  servicePersist_malformed_payload.1 "Unexpected end of JSON input"
    ⟨"\x7b", some "REPLY.INBOX"⟩ (fun _ => HandlerOutcome.ok Json.null) "REPLY.INBOX" rfl rfl

/-- C7 counterexample: `subjectFor` is not injective over all distinct
pairs — `("a.b", "c")` and `("a", "b.c")` are distinct yet map to the same
subject `a.b.c`. -/
theorem subjectFor_not_injective_counterexample :
    subjectFor "a.b" "c" = subjectFor "a" "b.c" ∧
    (("a.b", "c") : String × String) ≠ ("a", "b.c") :=
  ⟨rfl, by decide⟩

/-- C7 (amended): `subjectFor service method = service ++ "." ++ method`
is injective over pairs whose service component contains no `.`; the code
never validates its inputs, so pairs with dotted service names can
collide. -/
theorem subjectFor_inj (s1 m1 s2 m2 : String)
    (h1 : '.' ∉ s1.toList) (h2 : '.' ∉ s2.toList)
    (h : subjectFor s1 m1 = subjectFor s2 m2) : s1 = s2 ∧ m1 = m2 := by
  have hd : s1.data ++ '.' :: m1.data = s2.data ++ '.' :: m2.data := by
    have hc := congrArg String.data h
    simpa [subjectFor, String.data_append] using hc
  obtain ⟨hs, hm⟩ := append_sep_inj '.' s1.data s2.data m1.data m2.data h1 h2 hd
  exact ⟨String.ext hs, String.ext hm⟩

/-- C7 witness: injectivity applied at the demo's `math.add` pair. -/
theorem subjectFor_inj_witness : ("math" : String) = "math" ∧ ("add" : String) = "add" :=
  subjectFor_inj "math" "add" "math" "add" (by decide) (by decide) rfl

/-- C8: round-trips `decode (encode (Ok (result = X))) = Ok (result = X)`
for a number, an object, `null` and an array, and the zero-length payload
decodes to `Empty` (`some none`, the wrapper's `undefined`), which is
distinct from a decoded `null`. -/
theorem envelope_roundtrip :
    decodeWrapper (jsonStringify (okEnvelope (Json.num 5))) =
      some (some (okEnvelope (Json.num 5))) ∧
    decodeWrapper (jsonStringify (okEnvelope (Json.obj [("a", Json.num 1)]))) =
      some (some (okEnvelope (Json.obj [("a", Json.num 1)]))) ∧
    decodeWrapper (jsonStringify (okEnvelope Json.null)) =
      some (some (okEnvelope Json.null)) ∧
    decodeWrapper (jsonStringify (okEnvelope (Json.arr [Json.num 1, Json.num 2]))) =
      some (some (okEnvelope (Json.arr [Json.num 1, Json.num 2]))) ∧
    decodeWrapper "" = some none ∧
    (some none : Option (Option Json)) ≠ some (some Json.null) :=
  ⟨rfl, rfl, rfl, rfl, rfl, by simp⟩

/-- C9 counterexample: a call with no explicit options resolves its
timeout to the constructor default 1000 ms, not the claimed 10000 ms (and
the source defines no `retries`, `retryDelayMs` or `maxRetryDelayMs`
options at all). -/
theorem callOptions_defaults_counterexample :
    callTimeout none (defaultTimeoutOf none) = 1000 ∧ (1000 : Int) ≠ 10000 :=
  ⟨rfl, by decide⟩

/-- C9 (amended): `call` reads a single option, `timeout`, defaulting to
the instance `defaultTimeout`, which itself defaults to 1000 ms at
construction; an explicit numeric `timeout` is used unchanged (no
clamping and no retry-related options exist). -/
theorem callOptions_resolution (d t dflt : Int) :
    callTimeout none (defaultTimeoutOf none) = 1000 ∧
    callTimeout none (defaultTimeoutOf (some d)) = d ∧
    callTimeout (some t) dflt = t :=
  ⟨rfl, rfl, rfl⟩

/-- C10: `emit` publishes exactly `encode (data ?? null)`; the body is
never zero-length, and the emitted no-data event decodes to `null`
(`some Json.null`), not to the `Empty`/`undefined` of an absent body. -/
theorem emit_payload_never_empty :
    (∀ data : Option Json, emitBody data = jsonStringify (data.getD Json.null)) ∧
    (∀ data : Option Json, (emitBody data).length ≠ 0) ∧
    decodeWrapper (emitBody none) = some (some Json.null) ∧
    (some (some Json.null) : Option (Option Json)) ≠ some none :=
  ⟨fun _ => rfl, fun data => jsonStringify_length_ne_zero (data.getD Json.null), rfl, by simp⟩

/-- C3 counterexample: the remote-error throw sits inside `call`'s try
block, so an `__error` reply whose message contains the word `timeout` is
re-caught and reclassified as `RPC_TIMEOUT` instead of surfacing as the
claimed `RPC_REMOTE_ERROR`. -/
theorem call_errEnvelope_reclassified_counterexample :
    callModel "svc.m" 1000
        (ReqOutcome.reply "\x7b\"__error\":true,\"message\":\"timeout\"\x7d") =
      CallOutcome.rpcTimeout "RPC timeout after 1000ms for subject svc.m" 1000 ∧
    callModel "svc.m" 1000
        (ReqOutcome.reply "\x7b\"__error\":true,\"message\":\"timeout\"\x7d") ≠
      CallOutcome.remoteError "timeout" none none := by
  have e : callModel "svc.m" 1000
      (ReqOutcome.reply "\x7b\"__error\":true,\"message\":\"timeout\"\x7d") =
      CallOutcome.rpcTimeout "RPC timeout after 1000ms for subject svc.m" 1000 := rfl
  refine ⟨e, ?_⟩
  rw [e]
  intro hcontra
  exact CallOutcome.noConfusion hcontra

/-- C3 (amended): on a decoded reply, an `__ok` envelope makes `call`
return its `result`; an `__error` envelope makes it fail with
`RPC_REMOTE_ERROR` carrying the envelope's message, stack and name,
PROVIDED the message does not match the catch block's timeout /
no-responders patterns (such messages are reclassified); and a value that
is neither variant is returned unchanged. -/
theorem call_reply_envelope_handling :
    (∀ (s : String) (t : Int) (data : String) (x : Json),
        decodeWrapper data = some (some (okEnvelope x)) →
        callModel s t (ReqOutcome.reply data) = CallOutcome.ret (some x)) ∧
    (∀ (s : String) (t : Int) (data : String) (msg : String) (st nm : Option String),
        decodeWrapper data = some (some (errEnvelope msg st nm)) →
        testWordCI "timeout" msg = false →
        testWordCI "no responders" msg = false →
        testWord "503" msg = false →
        callModel s t (ReqOutcome.reply data) =
          CallOutcome.remoteError msg (st.map Json.str) (nm.map Json.str)) ∧
    (∀ (s : String) (t : Int) (data : String) (v : Json),
        decodeWrapper data = some (some v) →
        jsTruthy (getField v "__error") = false →
        jsTruthy (getField v "__ok") = false →
        callModel s t (ReqOutcome.reply data) = CallOutcome.ret (some v)) := by
  refine ⟨?_, ?_, ?_⟩
  · intro s t data x hdec
    simp only [callModel, hdec]
    rfl
  · intro s t data msg st nm hdec hTO hNR1 hNR2
    simp only [callModel, hdec]
    cases st <;> cases nm <;>
      simp [errEnvelope, processReply, jsTruthyVal, jsTruthy, getField, lookupLast,
        coalesceMessage, jsStringOfJson, classify, timeoutDetected, noRespondersDetected,
        codeStrOf, hTO, hNR1, hNR2]
  · intro s t data v hdec hErr hOk
    simp only [callModel, hdec]
    cases hv : jsTruthyVal v with
    | false => simp [processReply, hv]
    | true => simp [processReply, hv, hErr, hOk]

/-- C3 witness: an `Ok` envelope with `result = 5` makes the call return
`5`. -/
theorem call_reply_envelope_handling_witness :
    callModel "math.add" 1000 (ReqOutcome.reply "\x7b\"__ok\":true,\"result\":5\x7d") =
      CallOutcome.ret (some (Json.num 5)) :=
  call_reply_envelope_handling.1 "math.add" 1000
    "\x7b\"__ok\":true,\"result\":5\x7d" (Json.num 5) rfl
